import Mathlib

set_option maxRecDepth 4000000
set_option maxHeartbeats 2000000

/-!
Shallow embedding of the signal-detection engine of the intraday-alert
repository (`src/new_scanner.py`), together with theorems settling the
frozen claims about it.

Conventions of the embedding:
* Python/pandas floating-point prices and indicator values are modelled as
  rationals (`ℚ`).  Pandas `NaN` cells (undefined indicator values) are
  modelled as `none` in `Option ℚ`; a float comparison against `NaN`
  evaluates to `False` in Python, which the embedding reproduces where the
  code can reach such a comparison.
* The float division `gain / loss` in the RSI computation yields `inf`
  when `loss = 0 < gain` (so `rsi = 100 - 100/(1+inf) = 100`) and `NaN`
  when both are `0` (so `rsi` is undefined); `rsi14` below reproduces this
  by an explicit case split.
* `math.atan2(percentage_rise, lookback)` with `lookback = 5 > 0` equals
  `arctan (percentage_rise / 5)`; the comparison of the resulting angle in
  degrees against the configured minimum angle is abstracted in
  `check_signal` as a boolean test `gate : ℚ → Bool` on `percentage_rise`.
  For the debug configuration (`MIN_ANGLE = 0.0`) the test is exactly
  `0 ≤ percentage_rise`, realised by `gateDebug` and certified against the
  real-valued angle by the trend-gate theorems below.
* The `round(x, 2)` applied to every field of the dict returned by
  `check_signal` is modelled by `round2`: rounding to the nearest
  hundredth with ties to even, Python's rounding mode.
-/

namespace Scanner

/-- A daily OHLCV candle (one row of the fetched dataframe).  The Python
column `open` is a Lean keyword, hence the field name `open_`. -/
structure Candle where
  open_ : ℚ
  high : ℚ
  low : ℚ
  close : ℚ
  volume : ℚ
deriving DecidableEq

instance : Inhabited Candle := ⟨⟨0, 0, 0, 0, 0⟩⟩

/-- Well-formedness of a candle per the data model: positive prices with
`low` and `high` bracketing `open` and `close`. -/
def CandleWF (c : Candle) : Prop :=
  0 < c.low ∧ c.low ≤ c.open_ ∧ c.low ≤ c.close ∧ c.open_ ≤ c.high ∧ c.close ≤ c.high

instance (c : Candle) : Decidable (CandleWF c) := by
  unfold CandleWF; infer_instance

/-- The close-price series of a dataframe. -/
def closes (df : List Candle) : List ℚ := df.map Candle.close

/-- The volume series of a dataframe. -/
def volumes (df : List Candle) : List ℚ := df.map Candle.volume

/-- Pandas `series.rolling(n).mean()` at index `i`: defined exactly when
the trailing window of `n` values fits (`n ≤ i + 1`) and `i` is in range;
its value is the arithmetic mean of `xs[i-n+1 .. i]`. -/
def smaAt (n : ℕ) (xs : List ℚ) (i : ℕ) : Option ℚ :=
  if n ≤ i + 1 ∧ i < xs.length then
    some (((xs.drop (i + 1 - n)).take n).sum / n)
  else none

/-- `df["sma_44"]`: 44-bar rolling mean of closes. -/
def sma44 (close : List ℚ) (i : ℕ) : Option ℚ := smaAt 44 close i

/-- `df["vol_avg_20"]`: 20-bar rolling mean of volumes. -/
def volAvg20 (vol : List ℚ) (i : ℕ) : Option ℚ := smaAt 20 vol i

/-- Tail of the gain series: `max (cur - previous) 0` for each consecutive
pair, mirroring `delta.where(delta > 0, 0)` from the second row on. -/
def gainsFrom (p : ℚ) : List ℚ → List ℚ
  | [] => []
  | c :: cs => max (c - p) 0 :: gainsFrom c cs

/-- The gain series `delta.where(delta > 0, 0)`: the first entry is `0`
(`close.diff()` puts `NaN` there, and `NaN > 0` is `False`, so `where`
replaces it by `0`). -/
def gains : List ℚ → List ℚ
  | [] => []
  | c :: cs => 0 :: gainsFrom c cs

/-- Tail of the loss series: `max (previous - cur) 0` for each consecutive
pair, mirroring `-delta.where(delta < 0, 0)`. -/
def lossesFrom (p : ℚ) : List ℚ → List ℚ
  | [] => []
  | c :: cs => max (p - c) 0 :: lossesFrom c cs

/-- The loss series `-delta.where(delta < 0, 0)`; first entry `0` as for
`gains`. -/
def losses : List ℚ → List ℚ
  | [] => []
  | c :: cs => 0 :: lossesFrom c cs

/-- 14-bar rolling mean of the gain series (`avgGain`). -/
def avgGain (close : List ℚ) (i : ℕ) : Option ℚ := smaAt 14 (gains close) i

/-- 14-bar rolling mean of the loss series (`avgLoss`). -/
def avgLoss (close : List ℚ) (i : ℕ) : Option ℚ := smaAt 14 (losses close) i

/-- `df["rsi_14"] = 100 - 100/(1 + gain/loss)`.  The float division
`gain/loss` gives `+inf` when `loss = 0 < gain` (whence `rsi = 100`) and
`NaN` when both vanish (whence `rsi` undefined); both branches are made
explicit here. -/
def rsi14 (close : List ℚ) (i : ℕ) : Option ℚ :=
  match avgGain close i, avgLoss close i with
  | some g, some l =>
      if l = 0 then (if g = 0 then none else some 100)
      else some (100 - 100 / (1 + g / l))
  | _, _ => none

/-- `SUPPORT_TOLERANCE`: `0.002` in production, widened to `0.2` when
`DEBUG` is set (module level `if DEBUG == True: SUPPORT_TOLERANCE = 0.2`). -/
def SUPPORT_TOLERANCE (debug : Bool) : ℚ := if debug then 2/10 else 2/1000

/-- The signal dictionary returned by `check_signal` (the string field
`Symbol` and the date field `LastDate` carry no numeric content and are
omitted).  Each numeric field carries the `round(x, 2)`-rounded value,
exactly as in the returned dict. -/
structure Signal where
  Entry : ℚ
  SL : ℚ
  Target : ℚ
  RSI : ℚ
  SLP : ℚ
deriving DecidableEq

/-- `percentage_rise = (sma_now - sma_old) / sma_old * 100` where
`sma_now = df.iloc[-1]["sma_44"]` and `sma_old = df.iloc[-lookback]["sma_44"]`
with `lookback = 5`, i.e. the bar at index `length - 5` — four positions
before the evaluated bar `length - 1`.  `none` when either SMA is `NaN`. -/
def percentRise (df : List Candle) : Option ℚ :=
  match sma44 (closes df) (df.length - 1), sma44 (closes df) (df.length - 5) with
  | some now, some old => some ((now - old) / old * 100)
  | _, _ => none

/-- The trend gate rejects (`angle_deg < MIN_ANGLE` holds) iff the slope
test `gate` fails on `percentage_rise`.  When `percentage_rise` is `NaN`
the float comparison `NaN < MIN_ANGLE` is `False`, so no rejection. -/
def slopeRejects (gate : ℚ → Bool) (df : List Candle) : Bool :=
  match percentRise df with
  | some pr => ! gate pr
  | none => false

/-- Debug-mode slope test (`MIN_ANGLE = 0.0`): the gate passes iff
`¬ (angle_deg < 0)`, i.e. iff `0 ≤ percentage_rise`; certified against the
real-valued angle by the trend-gate theorems. -/
def gateDebug (pr : ℚ) : Bool := decide (0 ≤ pr)

/-- `row["volume"] <= row["vol_avg_20"]` (the volume filter trips); a
`NaN` average compares `False`. -/
def volBelowAvg (df : List Candle) : Bool :=
  match volAvg20 (volumes df) (df.length - 1) with
  | some va => decide ((df.getD (df.length - 1) default).volume ≤ va)
  | none => false

/-- Case 1 of `check_signal`: the evaluated bar is green, its low touches
the SMA support zone, and it closes above the SMA. -/
def caseA (tol : ℚ) (df : List Candle) (smaV : ℚ) : Prop :=
  (df.getD (df.length - 1) default).close > (df.getD (df.length - 1) default).open_ ∧
  (df.getD (df.length - 1) default).low ≤ smaV * (1 + tol) ∧
  (df.getD (df.length - 1) default).close > smaV

instance (tol : ℚ) (df : List Candle) (smaV : ℚ) : Decidable (caseA tol df smaV) := by
  unfold caseA; infer_instance

/-- `prev["low"] <= prev["sma_44"] * (1 + SUPPORT_TOLERANCE)` at bar `k`,
against that bar's own SMA; a `NaN` SMA compares `False`. -/
def touchedAt (tol : ℚ) (df : List Candle) (k : ℕ) : Prop :=
  match sma44 (closes df) k with
  | some m => (df.getD k default).low ≤ m * (1 + tol)
  | none => False

instance (tol : ℚ) (df : List Candle) (k : ℕ) : Decidable (touchedAt tol df k) := by
  unfold touchedAt
  cases sma44 (closes df) k <;> simp <;> infer_instance

/-- Case 2 of `check_signal`: green bar closing above the prior bar's high
with its low above the SMA zone, the two preceding bars red, and at least
one of them having touched its SMA zone. -/
def caseB (tol : ℚ) (df : List Candle) (smaV : ℚ) : Prop :=
  (df.getD (df.length - 1) default).close > (df.getD (df.length - 1) default).open_ ∧
  ((df.getD (df.length - 1) default).close > (df.getD (df.length - 2) default).high ∧
    (df.getD (df.length - 1) default).low > smaV * (1 + tol)) ∧
  ((df.getD (df.length - 2) default).close < (df.getD (df.length - 2) default).open_ ∧
    (df.getD (df.length - 3) default).close < (df.getD (df.length - 3) default).open_) ∧
  (touchedAt tol df (df.length - 2) ∨ touchedAt tol df (df.length - 3))

instance (tol : ℚ) (df : List Candle) (smaV : ℚ) : Decidable (caseB tol df smaV) := by
  unfold caseB; infer_instance

/-- Python's `round(x)` to an integer: nearest integer, ties to even. -/
def roundHalfEven (x : ℚ) : ℤ :=
  if x - ⌊x⌋ < 1/2 then ⌊x⌋
  else if 1/2 < x - ⌊x⌋ then ⌊x⌋ + 1
  else if ⌊x⌋ % 2 = 0 then ⌊x⌋ else ⌊x⌋ + 1

/-- Python's `round(x, 2)`: the nearest multiple of `1/100`, ties to even
(on these rational values this agrees with CPython's rounding of the
corresponding binary floats away from exact ties). -/
def round2 (x : ℚ) : ℚ := (roundHalfEven (100 * x) : ℚ) / 100

/-- The levels of a fired signal: `entry = row["high"]`,
`sl = max(min(row["low"], row["sma_44"]), entry * 0.98)`,
`target = entry + (entry - sl) * 2`, `SLP = (entry - sl) / entry * 100`,
each field stored `round(x, 2)`-rounded as in the returned dict. -/
def mkSignal (df : List Candle) (smaV rsiV : ℚ) : Signal :=
  let row := df.getD (df.length - 1) default
  let entry := row.high
  let sl := max (min row.low smaV) (entry * (98/100))
  ⟨round2 entry, round2 sl, round2 (entry + (entry - sl) * 2), round2 rsiV,
    round2 ((entry - sl) / entry * 100)⟩

/-- `check_signal(df, symbol)` of `src/new_scanner.py`, evaluated on the
most recent bar.  `debug` is the module-level `DEBUG` flag (`True` as
shipped); `gate` is the slope-angle test on `percentage_rise` (the
`atan2`-based comparison against `MIN_ANGLE`, abstracted; `gateDebug` is
its debug instantiation). -/
def check_signal (debug : Bool) (gate : ℚ → Bool) (df : List Candle) : Option Signal :=
  if df.length < 50 then none
  else
    match sma44 (closes df) (df.length - 1), rsi14 (closes df) (df.length - 1) with
    | some smaV, some rsiV =>
        if debug = false ∧ ¬ (38 ≤ rsiV ∧ rsiV ≤ 60) then none
        else if debug = false ∧ volBelowAvg df = true then none
        else if slopeRejects gate df = true then none
        else if caseA (SUPPORT_TOLERANCE debug) df smaV ∨ caseB (SUPPORT_TOLERANCE debug) df smaV then
          some (mkSignal df smaV rsiV)
        else none
    | _, _ => none

/-- The slope angle in degrees:
`math.degrees(math.atan2(percentage_rise, 5)) = arctan (pr / 5) * 180 / π`. -/
noncomputable def angleDeg (pr : ℚ) : ℝ :=
  Real.arctan ((pr : ℝ) / 5) * 180 / Real.pi

/-- `MIN_ANGLE`: `2` in production, `0.0` when `DEBUG` is set. -/
noncomputable def minAngleDeg (debug : Bool) : ℝ := if debug then 0 else 2

/- ================= orchestrator (`main` of `src/new_scanner.py`) ====== -/

/-- Per-symbol outcome as seen by the scan loop: `none` models
`fetch_data` returning `None` (symbol skipped), `some r` models a fetched
dataframe whose classification result is `r`. -/
abbrev SymbolOutcome := Option (Option Signal)

/-- The scan loop of `main`: walks the universe in order carrying
`signals_sent` and the `last_processed_df is not None` flag, breaking as
soon as `signals_sent >= MAX_SIGNALS`.  Returns the emitted signals in
order, the final count, and the processed flag. -/
def scanLoop (maxSignals : ℕ) :
    List SymbolOutcome → ℕ → Bool → List Signal × ℕ × Bool
  | [], count, processed => ([], count, processed)
  | o :: rest, count, processed =>
      if maxSignals ≤ count then ([], count, processed)
      else
        match o with
        | none => scanLoop maxSignals rest count processed
        | some none => scanLoop maxSignals rest count true
        | some (some sig) =>
            let r := scanLoop maxSignals rest (count + 1) true
            (sig :: r.1, r.2.1, r.2.2)

/-- Result of one full run of `main`: the real signals emitted by the
loop, whether any dataframe was processed, whether the debug mock signal
fired, the final `signals_sent`, and whether the "No signals found."
message was posted. -/
structure ScanOutcome where
  signals : List Signal
  processedAny : Bool
  mockSent : Bool
  sent : ℕ
  notified : Bool

/-- `main` of `src/new_scanner.py` after the per-symbol loop: if `DEBUG`
and `signals_sent == 0` and some dataframe was processed, a mock signal is
sent and `signals_sent` incremented; the "No signals found." notification
is posted iff the final `signals_sent` is `0`. -/
def runScan (debug : Bool) (maxSignals : ℕ) (outcomes : List SymbolOutcome) : ScanOutcome :=
  let r := scanLoop maxSignals outcomes 0 false
  let mock := debug && (r.2.1 == 0) && r.2.2
  let sent := r.2.1 + (if mock then 1 else 0)
  ⟨r.1, r.2.2, mock, sent, sent == 0⟩

/-- The qualifying signals of a universe, in universe order (those symbols
whose fetch succeeded and whose classification fired). -/
def qualifying (outcomes : List SymbolOutcome) : List Signal :=
  outcomes.filterMap (fun o => o.bind id)

/-- The claimed reading of the trend gate's inputs, following the spec's
words: `percentRise` computed between `atIndex` and `atIndex - lookback`
with `lookback = 5`, i.e. the bar five positions before the evaluated one.
To be compared with `percentRise`, the code's actual computation
(`df.iloc[-lookback]`, four positions before). -/
def percentRiseSpec (df : List Candle) : Option ℚ :=
  match sma44 (closes df) (df.length - 1), sma44 (closes df) (df.length - 1 - 5) with
  | some now, some old => some ((now - old) / old * 100)
  | _, _ => none

/- ================= concrete series used by witnesses ================= -/

/-- A degenerate candle whose four prices coincide. -/
def flatCandle (p : ℚ) : Candle := ⟨p, p, p, p, 1⟩

/-- 49 flat bars at 10 followed by one bullish bar 10 → 12: fires Case A
in debug mode. -/
def dfFire : List Candle :=
  (List.replicate 49 (flatCandle 10)) ++ [⟨10, 12, 10, 12, 1⟩]

/-- Like `dfFire` but with the second bar at 32, so that the SMA five bars
before the evaluated bar exceeds the current SMA while the SMA four bars
before does not: separates the code's trend gate from the claimed one. -/
def dfGap : List Candle :=
  flatCandle 10 :: flatCandle 32 :: (List.replicate 47 (flatCandle 10)) ++ [⟨10, 12, 10, 12, 1⟩]

/-- 46 flat bars at 10 then 4 flat bars at 8: the SMA is falling, so the
debug trend gate rejects. -/
def dfDown : List Candle :=
  (List.replicate 46 (flatCandle 10)) ++ List.replicate 4 (flatCandle 8)

/-- Close series with one up- and one down-move inside the RSI window:
both rolling averages positive, RSI strictly inside (0, 100). -/
def closeMix : List ℚ := [10, 11, 9, 10] ++ List.replicate 11 10

/-- Close series whose only move in the RSI window is an up-move:
`avgLoss = 0 < avgGain`. -/
def closeUp : List ℚ := List.replicate 14 10 ++ [12]

/-- Flat close series: both rolling averages vanish. -/
def closeFlat : List ℚ := List.replicate 15 10

/-- 14 flat bars then a bar closing at 11; agrees with `dfAlt` up to
index 13. -/
def dfBase : List Candle := List.replicate 14 (flatCandle 10) ++ [flatCandle 11]

/-- 14 flat bars then a bar closing at 3; agrees with `dfBase` up to
index 13. -/
def dfAlt : List Candle := List.replicate 14 (flatCandle 10) ++ [flatCandle 3]

/-- 44 flat bars at 2: the earliest index with a defined `sma44`. -/
def closeSma : List ℚ := List.replicate 44 2

/-- 15 flat bars: too short for `sma44`. -/
def dfFlat : List Candle := List.replicate 15 (flatCandle 10)

/-- 50 flat bars: `sma44` defined at the last bar but `rsi14` undefined
(both rolling averages vanish). -/
def dfFlat50 : List Candle := List.replicate 50 (flatCandle 10)

/-- The signal fired on `dfFire` (all its levels are exact hundredths, so
rounding leaves them unchanged). -/
def sFire : Signal := ⟨12, 294/25, 312/25, 100, 2⟩

/-- 49 flat bars at 100, then a bullish bar with `low = 99.004` and
`high = close = 101`: fires Case A with levels whose hundredths rounding
is visible (`sl = 99.004`, `target = 104.992`). -/
def dfRound : List Candle :=
  (List.replicate 49 (flatCandle 100)) ++ [⟨100, 101, 24751/250, 101, 1⟩]

/-- The signal fired on `dfRound`: `round(99.004, 2) = 99.0` and
`round(104.992, 2) = 104.99`. -/
def sRound : Signal := ⟨101, 99, 10499/100, 100, 99/50⟩

/-- 49 flat bars at 100, then a bullish bar `open = low = 100`,
`close = high = 100.004`: fires Case A with risk under half a hundredth. -/
def dfTiny : List Candle :=
  (List.replicate 49 (flatCandle 100)) ++ [⟨100, 25001/250, 100, 25001/250, 1⟩]

/-- The signal fired on `dfTiny`: entry and stop-loss both round to 100
and the stop-loss percentage `100/25001` rounds to `0.0`. -/
def sTiny : Signal := ⟨100, 100, 10001/100, 100, 0⟩

/- ================= helper lemmas ================= -/

theorem getD_mem {α : Type} {l : List α} {k : ℕ} (hk : k < l.length) (d : α) :
    l.getD k d ∈ l := by
  rw [List.getD_eq_getElem?_getD, List.getElem?_eq_getElem hk]
  exact List.getElem_mem hk

theorem smaAt_congr_take {n : ℕ} {xs ys : List ℚ} {i : ℕ}
    (h : xs.take (i + 1) = ys.take (i + 1)) : smaAt n xs i = smaAt n ys i := by
  have hlen : min (i + 1) xs.length = min (i + 1) ys.length := by
    have := congrArg List.length h
    simpa using this
  by_cases hn : n ≤ i + 1
  · by_cases hx : i < xs.length
    · have hy : i < ys.length := by omega
      have e : i + 1 - n + n = i + 1 := by omega
      have hwx : (xs.drop (i + 1 - n)).take n = (xs.take (i + 1)).drop (i + 1 - n) := by
        rw [List.take_drop, e]
      have hwy : (ys.drop (i + 1 - n)).take n = (ys.take (i + 1)).drop (i + 1 - n) := by
        rw [List.take_drop, e]
      unfold smaAt
      rw [if_pos ⟨hn, hx⟩, if_pos ⟨hn, hy⟩, hwx, hwy, h]
    · have hy : ¬ i < ys.length := by omega
      unfold smaAt
      rw [if_neg (by tauto), if_neg (by tauto)]
  · unfold smaAt
    rw [if_neg (by tauto), if_neg (by tauto)]

theorem gainsFrom_take (p : ℚ) (l : List ℚ) (k : ℕ) :
    (gainsFrom p l).take k = gainsFrom p (l.take k) := by
  induction l generalizing p k with
  | nil => simp [gainsFrom]
  | cons c cs ih =>
    cases k with
    | zero => simp [gainsFrom]
    | succ k => simp [gainsFrom, List.take_succ_cons, ih]

theorem lossesFrom_take (p : ℚ) (l : List ℚ) (k : ℕ) :
    (lossesFrom p l).take k = lossesFrom p (l.take k) := by
  induction l generalizing p k with
  | nil => simp [lossesFrom]
  | cons c cs ih =>
    cases k with
    | zero => simp [lossesFrom]
    | succ k => simp [lossesFrom, List.take_succ_cons, ih]

theorem gains_take (l : List ℚ) (k : ℕ) : (gains l).take k = gains (l.take k) := by
  cases l with
  | nil => simp [gains]
  | cons c cs =>
    cases k with
    | zero => simp [gains]
    | succ k => simp [gains, List.take_succ_cons, gainsFrom_take]

theorem losses_take (l : List ℚ) (k : ℕ) : (losses l).take k = losses (l.take k) := by
  cases l with
  | nil => simp [losses]
  | cons c cs =>
    cases k with
    | zero => simp [losses]
    | succ k => simp [losses, List.take_succ_cons, lossesFrom_take]

theorem gainsFrom_nonneg (p : ℚ) (l : List ℚ) : ∀ x ∈ gainsFrom p l, 0 ≤ x := by
  induction l generalizing p with
  | nil => simp [gainsFrom]
  | cons c cs ih =>
    intro x hx
    rcases List.mem_cons.mp hx with h | h
    · rw [h]; exact le_max_right _ _
    · exact ih c x h

theorem lossesFrom_nonneg (p : ℚ) (l : List ℚ) : ∀ x ∈ lossesFrom p l, 0 ≤ x := by
  induction l generalizing p with
  | nil => simp [lossesFrom]
  | cons c cs ih =>
    intro x hx
    rcases List.mem_cons.mp hx with h | h
    · rw [h]; exact le_max_right _ _
    · exact ih c x h

theorem gains_nonneg (l : List ℚ) : ∀ x ∈ gains l, 0 ≤ x := by
  cases l with
  | nil => simp [gains]
  | cons c cs =>
    intro x hx
    rcases List.mem_cons.mp hx with h | h
    · rw [h]
    · exact gainsFrom_nonneg c cs x h

theorem losses_nonneg (l : List ℚ) : ∀ x ∈ losses l, 0 ≤ x := by
  cases l with
  | nil => simp [losses]
  | cons c cs =>
    intro x hx
    rcases List.mem_cons.mp hx with h | h
    · rw [h]
    · exact lossesFrom_nonneg c cs x h

theorem smaAt_nonneg {n : ℕ} {xs : List ℚ} {i : ℕ} {q : ℚ}
    (hx : ∀ x ∈ xs, 0 ≤ x) (h : smaAt n xs i = some q) : 0 ≤ q := by
  unfold smaAt at h
  split at h
  · injection h with h'
    rw [← h']
    apply div_nonneg
    · apply List.sum_nonneg
      intro x hxw
      exact hx x (List.drop_subset _ _ (List.take_subset _ _ hxw))
    · exact Nat.cast_nonneg n
  · cases h

/- ================= claims C3, C4, C5 ================= -/

/-- C4: `sma44[i]` equals the arithmetic mean of `close[i-43..i]` (the
slice of `close` from index `i - 43` through `i`, of length 44) whenever
`43 ≤ i < length`, and is undefined for `i < 43`; in particular it is
undefined at every index of a series of fewer than 44 candles. -/
theorem sma44_window (close : List ℚ) (i : ℕ) :
    (43 ≤ i → i < close.length →
      sma44 close i = some (((close.take (i + 1)).drop (i - 43)).sum / 44) ∧
      ((close.take (i + 1)).drop (i - 43)).length = 44) ∧
    (i < 43 → sma44 close i = none) ∧
    (close.length < 44 → sma44 close i = none) := by
  refine ⟨?_, ?_, ?_⟩
  · intro h43 hlen
    have e1 : i + 1 - 44 = i - 43 := by omega
    have e2 : i - 43 + 44 = i + 1 := by omega
    constructor
    · unfold sma44 smaAt
      rw [if_pos ⟨by omega, hlen⟩, List.take_drop, e1, e2]
      norm_num
    · rw [List.length_drop, List.length_take]
      omega
  · intro h
    unfold sma44 smaAt
    rw [if_neg]
    rintro ⟨h1, h2⟩
    omega
  · intro h
    unfold sma44 smaAt
    rw [if_neg]
    rintro ⟨h1, h2⟩
    omega

/-- Witness for C4 at concrete inputs: the boundary index 43 of a 44-bar
series, an earlier index, and a too-short series. -/
theorem sma44_window_witness :
    (sma44 closeSma 43 = some (((closeSma.take 44).drop 0).sum / 44) ∧
      ((closeSma.take 44).drop 0).length = 44) ∧
    sma44 closeSma 42 = none ∧
    sma44 ([] : List ℚ) 43 = none :=
  ⟨(sma44_window closeSma 43).1 (by norm_num) (by with_unfolding_all decide),
   (sma44_window closeSma 42).2.1 (by norm_num),
   (sma44_window ([] : List ℚ) 43).2.2 (by simp)⟩

/-- C5: no look-ahead — each indicator value at index `i` depends only on
candles at indices at most `i`: two series agreeing up to index `i` have
identical `sma44`, `volAvg20` and `rsi14` values there (in particular,
altering or truncating candles strictly after `i` changes nothing at `i`). -/
theorem indicators_no_lookahead (df₁ df₂ : List Candle) (i : ℕ)
    (h : df₁.take (i + 1) = df₂.take (i + 1)) :
    sma44 (closes df₁) i = sma44 (closes df₂) i ∧
    volAvg20 (volumes df₁) i = volAvg20 (volumes df₂) i ∧
    rsi14 (closes df₁) i = rsi14 (closes df₂) i := by
  have hc : (closes df₁).take (i + 1) = (closes df₂).take (i + 1) := by
    unfold closes
    rw [← List.map_take, ← List.map_take, h]
  have hv : (volumes df₁).take (i + 1) = (volumes df₂).take (i + 1) := by
    unfold volumes
    rw [← List.map_take, ← List.map_take, h]
  refine ⟨smaAt_congr_take hc, smaAt_congr_take hv, ?_⟩
  have hg : (gains (closes df₁)).take (i + 1) = (gains (closes df₂)).take (i + 1) := by
    rw [gains_take, gains_take, hc]
  have hl : (losses (closes df₁)).take (i + 1) = (losses (closes df₂)).take (i + 1) := by
    rw [losses_take, losses_take, hc]
  unfold rsi14 avgGain avgLoss
  rw [smaAt_congr_take hg, smaAt_congr_take hl]

/-- Witness for C5: two 15-bar series agreeing up to index 13 and
differing at index 14 have identical indicators at index 13. -/
theorem indicators_no_lookahead_witness :
    sma44 (closes dfBase) 13 = sma44 (closes dfAlt) 13 ∧
    volAvg20 (volumes dfBase) 13 = volAvg20 (volumes dfAlt) 13 ∧
    rsi14 (closes dfBase) 13 = rsi14 (closes dfAlt) 13 :=
  indicators_no_lookahead dfBase dfAlt 13 (by with_unfolding_all rfl)

/-- C3: wherever `rsi14` is defined its value lies in `[0, 100]`; when the
trailing-14 average loss is `0` and the average gain is positive it is
exactly `100` (the float division by zero yields `inf`, hence the
saturating value, never an exception); when both averages are `0` it is
undefined (`0/0 = NaN`). -/
theorem rsi14_range_saturation (close : List ℚ) (i : ℕ) :
    (∀ r, rsi14 close i = some r → 0 ≤ r ∧ r ≤ 100) ∧
    (∀ g, avgLoss close i = some 0 → avgGain close i = some g → 0 < g →
      rsi14 close i = some 100) ∧
    (avgLoss close i = some 0 → avgGain close i = some 0 → rsi14 close i = none) := by
  refine ⟨?_, ?_, ?_⟩
  · intro r hr
    unfold rsi14 at hr
    cases hg : avgGain close i with
    | none => rw [hg] at hr; cases hr
    | some g =>
      cases hl : avgLoss close i with
      | none => rw [hg, hl] at hr; cases hr
      | some l =>
        rw [hg, hl] at hr
        dsimp only at hr
        have hg0 : 0 ≤ g := smaAt_nonneg (gains_nonneg close) hg
        have hl0 : 0 ≤ l := smaAt_nonneg (losses_nonneg close) hl
        by_cases hlz : l = 0
        · rw [if_pos hlz] at hr
          by_cases hgz : g = 0
          · rw [if_pos hgz] at hr; cases hr
          · rw [if_neg hgz] at hr
            injection hr with hr'
            rw [← hr']
            norm_num
        · rw [if_neg hlz] at hr
          injection hr with hr'
          have hlpos : 0 < l := lt_of_le_of_ne hl0 (Ne.symm hlz)
          have hrs : 0 ≤ g / l := div_nonneg hg0 hlpos.le
          have h1 : (0 : ℚ) < 1 + g / l := by linarith
          have hle : 100 / (1 + g / l) ≤ 100 := div_le_self (by norm_num) (by linarith)
          have hpos : 0 < 100 / (1 + g / l) := div_pos (by norm_num) h1
          rw [← hr']
          constructor <;> linarith
  · intro g hl hg hgpos
    unfold rsi14
    rw [hg, hl]
    simp [hgpos.ne']
  · intro hl hg
    unfold rsi14
    rw [hg, hl]
    simp

/-- Witness for C3 at concrete inputs: a mixed series with RSI 50, an
up-only series saturating at 100, and a flat series with undefined RSI. -/
theorem rsi14_range_saturation_witness :
    (0 ≤ (50 : ℚ) ∧ (50 : ℚ) ≤ 100) ∧
    rsi14 closeUp 14 = some 100 ∧
    rsi14 closeFlat 14 = none :=
  ⟨(rsi14_range_saturation closeMix 14).1 50 (by with_unfolding_all rfl),
   (rsi14_range_saturation closeUp 14).2.1 (1/7) (by with_unfolding_all rfl)
     (by with_unfolding_all rfl) (by norm_num),
   (rsi14_range_saturation closeFlat 14).2.2 (by with_unfolding_all rfl)
     (by with_unfolding_all rfl)⟩

/- ================= classifier structure lemmas ================= -/

theorem check_signal_some {debug : Bool} {gate : ℚ → Bool} {df : List Candle}
    {s : Signal} (h : check_signal debug gate df = some s) :
    50 ≤ df.length ∧
    ∃ smaV rsiV,
      sma44 (closes df) (df.length - 1) = some smaV ∧
      rsi14 (closes df) (df.length - 1) = some rsiV ∧
      slopeRejects gate df = false ∧
      (caseA (SUPPORT_TOLERANCE debug) df smaV ∨ caseB (SUPPORT_TOLERANCE debug) df smaV) ∧
      s = mkSignal df smaV rsiV := by
  unfold check_signal at h
  split at h
  · cases h
  next hlen =>
    split at h
    next smaV rsiV hs hr =>
      split at h
      · cases h
      split at h
      · cases h
      split at h
      · cases h
      next hslope =>
        split at h
        next hcase =>
          injection h with h'
          exact ⟨by omega, smaV, rsiV, hs, hr, by simpa using hslope, hcase, h'.symm⟩
        · cases h
    next hnone => cases h

theorem check_signal_eval {debug : Bool} {gate : ℚ → Bool} {df : List Candle}
    {smaV rsiV : ℚ} (h50 : 50 ≤ df.length)
    (hs : sma44 (closes df) (df.length - 1) = some smaV)
    (hr : rsi14 (closes df) (df.length - 1) = some rsiV)
    (hband : debug = false → 38 ≤ rsiV ∧ rsiV ≤ 60)
    (hvol : debug = false → volBelowAvg df = false)
    (hgate : slopeRejects gate df = false) :
    check_signal debug gate df =
      if caseA (SUPPORT_TOLERANCE debug) df smaV ∨ caseB (SUPPORT_TOLERANCE debug) df smaV
      then some (mkSignal df smaV rsiV) else none := by
  unfold check_signal
  rw [if_neg (by omega), hs, hr]
  dsimp only
  rw [if_neg, if_neg, if_neg]
  · rw [hgate]
    simp
  · rintro ⟨hd, hv⟩
    rw [hvol hd] at hv
    cases hv
  · rintro ⟨hd, hnb⟩
    exact hnb (hband hd)

/- ================= claims C6, C7, C1, C10 ================= -/

/-- C6: the classifier returns `none` whenever its preconditions are
unmet — fewer than 50 bars, `sma44` or `rsi14` undefined at the evaluated
bar, or fewer than 2 prior bars — and consequently a fired signal's bar
index `length - 1` is at least `max 44 (lookback + 1)`. -/
theorem classifier_preconds (debug : Bool) (gate : ℚ → Bool) (df : List Candle) :
    (df.length < 50 → check_signal debug gate df = none) ∧
    (sma44 (closes df) (df.length - 1) = none → check_signal debug gate df = none) ∧
    (rsi14 (closes df) (df.length - 1) = none → check_signal debug gate df = none) ∧
    (df.length < 3 → check_signal debug gate df = none) ∧
    (∀ s, check_signal debug gate df = some s → max 44 (5 + 1) ≤ df.length - 1) := by
  refine ⟨?_, ?_, ?_, ?_, ?_⟩
  · intro h
    unfold check_signal
    rw [if_pos h]
  · intro h
    unfold check_signal
    split
    · rfl
    · rw [h]
  · intro h
    unfold check_signal
    split
    · rfl
    · rw [h]
      cases sma44 (closes df) (df.length - 1) <;> rfl
  · intro h
    unfold check_signal
    rw [if_pos (by omega)]
  · intro s h
    have h50 := (check_signal_some h).1
    omega

/-- Witness for C6: empty and flat series are rejected for each separate
precondition, and the fired example's bar index is at least 44. -/
theorem classifier_preconds_witness :
    check_signal true gateDebug ([] : List Candle) = none ∧
    check_signal true gateDebug dfFlat = none ∧
    check_signal true gateDebug dfFlat50 = none ∧
    check_signal true gateDebug [flatCandle 10] = none ∧
    max 44 (5 + 1) ≤ dfFire.length - 1 :=
  ⟨(classifier_preconds true gateDebug []).1 (by norm_num),
   (classifier_preconds true gateDebug dfFlat).2.1 (by with_unfolding_all rfl),
   (classifier_preconds true gateDebug dfFlat50).2.2.1 (by with_unfolding_all rfl),
   (classifier_preconds true gateDebug [flatCandle 10]).2.2.2.1 (by norm_num),
   (classifier_preconds true gateDebug dfFire).2.2.2.2 sFire (by with_unfolding_all rfl)⟩

/-- C7: given that the trend, RSI and volume gates pass (and the
indicators are defined on a series of at least 50 bars), the classifier
fires if and only if Case A or Case B holds. -/
theorem fires_iff_cases (debug : Bool) (gate : ℚ → Bool) (df : List Candle)
    (smaV rsiV : ℚ) (h50 : 50 ≤ df.length)
    (hs : sma44 (closes df) (df.length - 1) = some smaV)
    (hr : rsi14 (closes df) (df.length - 1) = some rsiV)
    (hband : debug = false → 38 ≤ rsiV ∧ rsiV ≤ 60)
    (hvol : debug = false → volBelowAvg df = false)
    (hgate : slopeRejects gate df = false) :
    (∃ s, check_signal debug gate df = some s) ↔
      (caseA (SUPPORT_TOLERANCE debug) df smaV ∨ caseB (SUPPORT_TOLERANCE debug) df smaV) := by
  rw [check_signal_eval h50 hs hr hband hvol hgate]
  by_cases hc : caseA (SUPPORT_TOLERANCE debug) df smaV ∨ caseB (SUPPORT_TOLERANCE debug) df smaV
  · simp [hc]
  · simp [hc]

/-- Witness for C7: on `dfFire` all gates pass, Case A holds, and the
classifier indeed fires. -/
theorem fires_iff_cases_witness :
    ∃ s, check_signal true gateDebug dfFire = some s :=
  (fires_iff_cases true gateDebug dfFire (221/22) 100
      (by with_unfolding_all decide) (by with_unfolding_all rfl) (by with_unfolding_all rfl)
      (fun h => absurd h (by decide)) (fun h => absurd h (by decide))
      (by with_unfolding_all rfl)).mpr
    (Or.inl (by with_unfolding_all decide))

/-- Python's integer rounding is monotone. -/
theorem roundHalfEven_mono {x y : ℚ} (h : x ≤ y) :
    roundHalfEven x ≤ roundHalfEven y := by
  have hf : ⌊x⌋ ≤ ⌊y⌋ := Int.floor_mono h
  rcases lt_or_eq_of_le hf with hlt | heq
  · have h1 : roundHalfEven x ≤ ⌊x⌋ + 1 := by
      unfold roundHalfEven
      split_ifs <;> omega
    have h2 : ⌊y⌋ ≤ roundHalfEven y := by
      unfold roundHalfEven
      split_ifs <;> omega
    omega
  · unfold roundHalfEven
    rw [← heq]
    have hsub : x - (⌊x⌋ : ℚ) ≤ y - (⌊x⌋ : ℚ) := by linarith
    split_ifs <;> first | omega | linarith

/-- `round(x, 2)` is monotone. -/
theorem round2_mono {x y : ℚ} (h : x ≤ y) : round2 x ≤ round2 y := by
  unfold round2
  have h1 : roundHalfEven (100 * x) ≤ roundHalfEven (100 * y) :=
    roundHalfEven_mono (by linarith)
  have h2 : ((roundHalfEven (100 * x) : ℤ) : ℚ) ≤ ((roundHalfEven (100 * y) : ℤ) : ℚ) := by
    exact_mod_cast h1
  linarith

theorem round2_zero : round2 0 = 0 := by with_unfolding_all rfl

/-- C1 counterexample: the emitted dict rounds every level to two
decimals, so the claimed exact relations fail on a fired signal.  On
`dfRound` the exact levels are `entry = 101`, `sl = 99.004`,
`target = 104.992`; after `round(x, 2)` the stop-loss formula and the
exact 1:2 target relation are both violated. -/
theorem signal_levels_cex :
    (∀ c ∈ dfRound, CandleWF c) ∧
    check_signal true gateDebug dfRound = some sRound ∧
    sma44 (closes dfRound) (dfRound.length - 1) = some (4401/44) ∧
    sRound.Target ≠ sRound.Entry + 2 * (sRound.Entry - sRound.SL) ∧
    sRound.SL ≠ max (min (dfRound.getD (dfRound.length - 1) default).low (4401/44))
      (sRound.Entry * (98/100)) :=
  ⟨by with_unfolding_all decide, by with_unfolding_all rfl, by with_unfolding_all rfl,
   by with_unfolding_all decide, by with_unfolding_all decide⟩

/-- C1 amended: every fired signal is the two-decimal rounding of exact
levels satisfying the claimed relations — `entry = high` of the signal
bar, `stopLoss = max(min(low, sma44), entry*0.98)` with
`entry*0.98 ≤ stopLoss ≤ entry`, `target = entry + 2*(entry - stopLoss)`
exactly — and each emitted field equals `round(·, 2)` of the
corresponding exact value (for well-formed candles). -/
theorem signal_levels_rounded (debug : Bool) (gate : ℚ → Bool) (df : List Candle) (s : Signal)
    (hwf : ∀ c ∈ df, CandleWF c) (h : check_signal debug gate df = some s) :
    ∃ smaV rsiV entry sl,
      sma44 (closes df) (df.length - 1) = some smaV ∧
      rsi14 (closes df) (df.length - 1) = some rsiV ∧
      entry = (df.getD (df.length - 1) default).high ∧
      sl = max (min (df.getD (df.length - 1) default).low smaV) (entry * (98/100)) ∧
      entry * (98/100) ≤ sl ∧ sl ≤ entry ∧
      s.Entry = round2 entry ∧ s.SL = round2 sl ∧
      s.Target = round2 (entry + 2 * (entry - sl)) ∧
      s.RSI = round2 rsiV ∧ s.SLP = round2 ((entry - sl) / entry * 100) := by
  obtain ⟨h50, smaV, rsiV, hs, hr, hsl, hcase, hmk⟩ := check_signal_some h
  have hrow : (df.getD (df.length - 1) default) ∈ df := getD_mem (by omega) _
  obtain ⟨hl0, hlo, hlc, hoh, hch⟩ := hwf _ hrow
  have hgreen : (df.getD (df.length - 1) default).open_ <
      (df.getD (df.length - 1) default).close := by
    rcases hcase with hA | hB
    · exact hA.1
    · exact hB.1
  have hlow_high : (df.getD (df.length - 1) default).low <
      (df.getD (df.length - 1) default).high :=
    lt_of_le_of_lt hlo (lt_of_lt_of_le hgreen hch)
  have hhigh_pos : 0 < (df.getD (df.length - 1) default).high :=
    lt_of_lt_of_le hl0 hlow_high.le
  subst hmk
  refine ⟨smaV, rsiV, _, _, hs, hr, rfl, rfl, le_max_right _ _, ?_, rfl, rfl,
    congrArg round2 (by ring), rfl, rfl⟩
  apply max_le
  · exact le_trans (min_le_left _ _) hlow_high.le
  · linarith

/-- Witness for the amended C1: the exact and rounded levels of the
signal fired on `dfFire`. -/
theorem signal_levels_rounded_witness :
    ∃ smaV rsiV entry sl,
      sma44 (closes dfFire) (dfFire.length - 1) = some smaV ∧
      rsi14 (closes dfFire) (dfFire.length - 1) = some rsiV ∧
      entry = (dfFire.getD (dfFire.length - 1) default).high ∧
      sl = max (min (dfFire.getD (dfFire.length - 1) default).low smaV) (entry * (98/100)) ∧
      entry * (98/100) ≤ sl ∧ sl ≤ entry ∧
      sFire.Entry = round2 entry ∧ sFire.SL = round2 sl ∧
      sFire.Target = round2 (entry + 2 * (entry - sl)) ∧
      sFire.RSI = round2 rsiV ∧ sFire.SLP = round2 ((entry - sl) / entry * 100) :=
  signal_levels_rounded true gateDebug dfFire sFire (by with_unfolding_all decide)
    (by with_unfolding_all rfl)

/-- C10 counterexample: rounding can collapse a sub-half-hundredth risk
to a displayed zero.  On `dfTiny` the exact levels are `entry = 100.004`,
`sl = 100`, `slp = 100/25001 ≈ 0.004`; the emitted dict rounds entry and
stop-loss to the same value `100.0` and the stop-loss percentage to
`0.0`, so the claimed strict inequalities fail on a fired signal. -/
theorem strict_risk_cex :
    (∀ c ∈ dfTiny, CandleWF c) ∧
    check_signal true gateDebug dfTiny = some sTiny ∧
    ¬ (sTiny.SL < sTiny.Entry) ∧ ¬ (0 < sTiny.SLP) :=
  ⟨by with_unfolding_all decide, by with_unfolding_all rfl,
   by with_unfolding_all decide, by with_unfolding_all decide⟩

/-- C10 amended: every fired signal's EXACT levels have strictly positive
risk — both entry cases require a bullish bar, so (for well-formed
candles) `low < high = entry`, `stopLoss < entry`, `stopLossPercent > 0`
and `target > entry` — and the emitted rounded fields satisfy the
non-strict versions `SL ≤ Entry`, `0 ≤ SLP`, `Entry ≤ Target`; the
strict inequalities can be lost to the two-decimal rounding when the risk
is below half a hundredth. -/
theorem strict_risk_rounded (debug : Bool) (gate : ℚ → Bool) (df : List Candle) (s : Signal)
    (hwf : ∀ c ∈ df, CandleWF c) (h : check_signal debug gate df = some s) :
    ∃ smaV entry sl,
      sma44 (closes df) (df.length - 1) = some smaV ∧
      entry = (df.getD (df.length - 1) default).high ∧
      sl = max (min (df.getD (df.length - 1) default).low smaV) (entry * (98/100)) ∧
      sl < entry ∧ 0 < (entry - sl) / entry * 100 ∧ entry < entry + (entry - sl) * 2 ∧
      s.Entry = round2 entry ∧ s.SL = round2 sl ∧
      s.SL ≤ s.Entry ∧ 0 ≤ s.SLP ∧ s.Entry ≤ s.Target := by
  obtain ⟨h50, smaV, rsiV, hs, hr, hsl, hcase, hmk⟩ := check_signal_some h
  have hrow : (df.getD (df.length - 1) default) ∈ df := getD_mem (by omega) _
  obtain ⟨hl0, hlo, hlc, hoh, hch⟩ := hwf _ hrow
  have hgreen : (df.getD (df.length - 1) default).open_ <
      (df.getD (df.length - 1) default).close := by
    rcases hcase with hA | hB
    · exact hA.1
    · exact hB.1
  have hlow_high : (df.getD (df.length - 1) default).low <
      (df.getD (df.length - 1) default).high :=
    lt_of_le_of_lt hlo (lt_of_lt_of_le hgreen hch)
  have hhigh_pos : 0 < (df.getD (df.length - 1) default).high :=
    lt_of_lt_of_le hl0 hlow_high.le
  have hsl_lt : max (min (df.getD (df.length - 1) default).low smaV)
      ((df.getD (df.length - 1) default).high * (98/100)) <
      (df.getD (df.length - 1) default).high := by
    apply max_lt
    · exact lt_of_le_of_lt (min_le_left _ _) hlow_high
    · linarith
  have hslp : 0 < ((df.getD (df.length - 1) default).high -
      max (min (df.getD (df.length - 1) default).low smaV)
        ((df.getD (df.length - 1) default).high * (98/100))) /
      (df.getD (df.length - 1) default).high * 100 :=
    mul_pos (div_pos (by linarith) hhigh_pos) (by norm_num)
  subst hmk
  refine ⟨smaV, _, _, hs, rfl, rfl, hsl_lt, hslp, by linarith, rfl, rfl, ?_, ?_, ?_⟩
  · exact round2_mono hsl_lt.le
  · exact le_trans (le_of_eq round2_zero.symm) (round2_mono hslp.le)
  · exact round2_mono (by linarith)

/-- Witness for the amended C10: strict risk on the exact levels and
non-strict risk on the rounded fields of the signal fired on `dfFire`. -/
theorem strict_risk_rounded_witness :
    ∃ smaV entry sl,
      sma44 (closes dfFire) (dfFire.length - 1) = some smaV ∧
      entry = (dfFire.getD (dfFire.length - 1) default).high ∧
      sl = max (min (dfFire.getD (dfFire.length - 1) default).low smaV) (entry * (98/100)) ∧
      sl < entry ∧ 0 < (entry - sl) / entry * 100 ∧ entry < entry + (entry - sl) * 2 ∧
      sFire.Entry = round2 entry ∧ sFire.SL = round2 sl ∧
      sFire.SL ≤ sFire.Entry ∧ 0 ≤ sFire.SLP ∧ sFire.Entry ≤ sFire.Target :=
  strict_risk_rounded true gateDebug dfFire sFire (by with_unfolding_all decide)
    (by with_unfolding_all rfl)

/- ================= claims C8, C9 ================= -/

theorem scanLoop_signals (maxSignals : ℕ) (outcomes : List SymbolOutcome) :
    ∀ (count : ℕ) (processed : Bool),
      (scanLoop maxSignals outcomes count processed).1 =
        (qualifying outcomes).take (maxSignals - count) := by
  induction outcomes with
  | nil => intro count processed; simp [scanLoop, qualifying]
  | cons o rest ih =>
    intro count processed
    unfold scanLoop
    by_cases hc : maxSignals ≤ count
    · rw [if_pos hc]
      have h0 : maxSignals - count = 0 := by omega
      rw [h0]
      simp
    · rw [if_neg hc]
      match o with
      | none =>
        rw [ih count processed]
        simp [qualifying, List.filterMap_cons]
      | some none =>
        rw [ih count true]
        simp [qualifying, List.filterMap_cons]
      | some (some sig) =>
        dsimp only
        rw [ih (count + 1) true]
        have h1 : maxSignals - count = (maxSignals - (count + 1)) + 1 := by omega
        rw [h1]
        simp only [qualifying, List.filterMap_cons, Option.some_bind, id_eq,
          List.take_succ_cons]

theorem scanLoop_count (maxSignals : ℕ) (outcomes : List SymbolOutcome) :
    ∀ (count : ℕ) (processed : Bool),
      (scanLoop maxSignals outcomes count processed).2.1 =
        count + (scanLoop maxSignals outcomes count processed).1.length := by
  induction outcomes with
  | nil => intro count processed; simp [scanLoop]
  | cons o rest ih =>
    intro count processed
    unfold scanLoop
    by_cases hc : maxSignals ≤ count
    · rw [if_pos hc]; simp
    · rw [if_neg hc]
      match o with
      | none => simpa using ih count processed
      | some none => simpa using ih count true
      | some (some sig) =>
        dsimp only
        rw [ih (count + 1) true]
        simp [List.length_cons]
        omega

/-- C8: the scan loop emits at most `maxSignals` signals, and the signals
emitted are exactly those of the first-encountered qualifying symbols in
universe order. -/
theorem scan_cap_order (debug : Bool) (maxSignals : ℕ) (outcomes : List SymbolOutcome) :
    (runScan debug maxSignals outcomes).signals = (qualifying outcomes).take maxSignals ∧
    (runScan debug maxSignals outcomes).signals.length ≤ maxSignals := by
  have h := scanLoop_signals maxSignals outcomes 0 false
  constructor
  · show (scanLoop maxSignals outcomes 0 false).1 = _
    rw [h]
    norm_num
  · show (scanLoop maxSignals outcomes 0 false).1.length ≤ _
    rw [h]
    exact le_trans (List.length_take_le _ _) (by omega)

/-- C9 counterexample: in debug mode (as shipped) a scan that produced
zero signals but processed at least one dataframe sends the mock signal
instead, and the "no signals" notification is suppressed. -/
theorem no_signals_notify_cex :
    (runScan true 1 [some none]).signals = [] ∧
    (runScan true 1 [some none]).notified = false :=
  ⟨by with_unfolding_all rfl, by with_unfolding_all rfl⟩

/-- C9 amended: the "no signals" notification is posted iff the loop
emitted no signal AND the debug mock did not fire — that is, iff zero
signals were produced and additionally the run is in production mode or
no symbol's dataframe was processed.  In production mode this is exactly
"zero signals produced". -/
theorem no_signals_notify (debug : Bool) (maxSignals : ℕ) (outcomes : List SymbolOutcome) :
    (runScan debug maxSignals outcomes).notified = true ↔
      ((runScan debug maxSignals outcomes).signals = [] ∧
        (debug = false ∨ (runScan debug maxSignals outcomes).processedAny = false)) := by
  have hcount := scanLoop_count maxSignals outcomes 0 false
  unfold runScan
  rcases hr : scanLoop maxSignals outcomes 0 false with ⟨sigs, c, p⟩
  rw [hr] at hcount
  dsimp only at hcount ⊢
  have hlen : c = sigs.length := by simpa using hcount
  subst hlen
  cases debug <;> cases p <;> cases sigs <;> simp

/- ================= claim C2 ================= -/

/-- C2 counterexample: on `dfGap` the spec-side percentage rise (measured
five bars back, at `atIndex - 5`) is negative, so the claimed trend gate
(reject when the angle is below the debug minimum of 0°) requires `none`
— yet the classifier fires, because the code measures from `iloc[-5]`,
only four bars back, where the rise is positive. -/
theorem trend_gate_cex :
    percentRiseSpec dfGap = some (-1000/231) ∧
    angleDeg (-1000/231) < minAngleDeg true ∧
    check_signal true gateDebug dfGap ≠ none := by
  refine ⟨by with_unfolding_all rfl, ?_, ?_⟩
  · have hx : (((-1000/231 : ℚ) : ℝ) / 5) < 0 := by
      push_cast
      norm_num
    have harc : Real.arctan (((-1000/231 : ℚ) : ℝ) / 5) < 0 := by
      have h := Real.arctan_strictMono hx
      rwa [Real.arctan_zero] at h
    unfold angleDeg minAngleDeg
    rw [if_pos rfl]
    exact div_neg_of_neg_of_pos (mul_neg_of_neg_of_pos harc (by norm_num)) Real.pi_pos
  · intro hnone
    rw [show check_signal true gateDebug dfGap = some sFire from by with_unfolding_all rfl]
      at hnone
    cases hnone

/-- C2 amended: the code's trend gate feeds `atan2` with the percentage
rise between the evaluated bar and the bar only four positions earlier
(`df.iloc[-lookback]` with `lookback = 5` and the evaluated bar at
`iloc[-1]`), while using `lookback = 5` as the run; with the debug-mode
minimum angle of 0° the gate passes iff that angle is not below 0°, i.e.
iff the percentage rise is nonnegative; whenever the slope gate rejects,
the classifier returns `none`. -/
theorem trend_gate_amended :
    (∀ pr : ℚ, gateDebug pr = true ↔ ¬ (angleDeg pr < minAngleDeg true)) ∧
    (∀ (debug : Bool) (gate : ℚ → Bool) (df : List Candle),
      slopeRejects gate df = true → check_signal debug gate df = none) := by
  constructor
  · intro pr
    unfold gateDebug angleDeg minAngleDeg
    rw [if_pos rfl]
    simp only [decide_eq_true_eq]
    constructor
    · intro hpr hlt
      have hq : (0 : ℝ) ≤ (pr : ℝ) := by exact_mod_cast hpr
      have hx : 0 ≤ ((pr : ℚ) : ℝ) / 5 := by linarith
      have harc : 0 ≤ Real.arctan ((pr : ℝ) / 5) := by
        have h := Real.arctan_strictMono.monotone hx
        rwa [Real.arctan_zero] at h
      have ha : 0 ≤ Real.arctan ((pr : ℝ) / 5) * 180 / Real.pi :=
        div_nonneg (mul_nonneg harc (by norm_num)) Real.pi_pos.le
      linarith
    · intro hn
      by_contra hpr
      push_neg at hpr
      apply hn
      have hq : (pr : ℝ) < 0 := by exact_mod_cast hpr
      have hx : ((pr : ℚ) : ℝ) / 5 < 0 := by linarith
      have harc : Real.arctan ((pr : ℝ) / 5) < 0 := by
        have h := Real.arctan_strictMono hx
        rwa [Real.arctan_zero] at h
      exact div_neg_of_neg_of_pos (mul_neg_of_neg_of_pos harc (by norm_num)) Real.pi_pos
  · intro debug gate df h
    cases hc : check_signal debug gate df with
    | none => rfl
    | some s =>
      obtain ⟨-, -, -, -, -, hsl, -, -⟩ := check_signal_some hc
      rw [h] at hsl
      cases hsl

/-- Witness for the amended C2: a falling-SMA series is rejected by the
slope gate, and the classifier returns `none` on it. -/
theorem trend_gate_amended_witness :
    check_signal true gateDebug dfDown = none :=
  trend_gate_amended.2 true gateDebug dfDown (by with_unfolding_all rfl)

end Scanner
